import Mathlib

/-!
Verification development for the FELScanner repository.

The definitions below are shallow embeddings of the Python source:

* `parse_video` embeds `PlexDVScanner._parse_xml_batch` (scanner.py), the
  per-`<Video>` extraction of Dolby Vision / Atmos capability data.
* `update_movie` embeds `MovieDatabase.update_movie` (scanner.py), the
  SQLite `INSERT ... ON CONFLICT(rating_key) DO UPDATE` upsert.
* `parse_quality`, `is_duplicate`, `is_notification_worthy`,
  `parse_torrent_quality` embed `UpgradeDetector` (integrations/upgrade_detector.py).
* `find_movie_in_db`, `parse_torrent_title`, `generate_request_id`,
  `process_ipt_discovery`, `execute_download` embed `DownloadManager`
  (integrations/download_manager.py), with `md5hex` a full MD5 implementation
  embedding Python's `hashlib.md5(...).hexdigest()`.
* `add_torrent` embeds `QBittorrentClient.add_torrent` (integrations/qbittorrent.py);
  the per-attempt HTTP outcome is supplied explicitly as an environment list.
* `handle_callback_no` embeds the decline branch of
  `TelegramDownloadHandler.handle_callback` (integrations/telegram_handler.py).
* `verify_collection` embeds the per-collection body of
  `PlexDVScanner.verify_collections` (scanner.py).

Impure inputs (wall-clock timestamps, HTTP responses, Telegram message ids)
are passed as explicit parameters, which is the only deviation from the
Python control flow.
-/

/-- Python `pat in s` substring test on strings (character lists). -/
def chars_start : List Char → List Char → Bool
  | [], _ => true
  | _ :: _, [] => false
  | p :: ps, h :: hs => p == h && chars_start ps hs

/-- Scan every suffix for a match of `pat` at its head. -/
def chars_have (pat : List Char) : List Char → Bool
  | [] => pat.isEmpty
  | h :: t => chars_start pat (h :: t) || chars_have pat t

/-- Python `pat in hay` for strings. -/
def str_has (hay pat : String) : Bool :=
  chars_have pat.data hay.data

/-- Python `re` whitespace class `\s` restricted to ASCII, which is also the
whitespace `str.strip()` removes in the text this program handles. -/
def is_py_space (c : Char) : Bool :=
  [32, 9, 10, 13, 11, 12].contains c.toNat

/-- Python `s.upper()` for ASCII text. -/
def py_upper (s : String) : String :=
  String.mk (s.data.map Char.toUpper)

/-- Python `s.lower()` for ASCII text; also SQLite's ASCII `LOWER`. -/
def py_lower (s : String) : String :=
  String.mk (s.data.map Char.toLower)

/-- Python `s.strip()`. -/
def py_strip (s : String) : String :=
  String.mk (((s.data.dropWhile is_py_space).reverse.dropWhile is_py_space).reverse)

/-- Numeric value of a digit run. -/
def digits_to_nat (l : List Char) : Nat :=
  l.foldl (fun acc c => 10 * acc + (c.toNat - 48)) 0

/-- Python `int(s)` on a string: optional sign and a non-empty digit run,
surrounding whitespace ignored; anything else raises, modelled as `none`. -/
def py_str_to_int (s : String) : Option Int :=
  match (py_strip s).data with
  | [] => none
  | '-' :: rest =>
    if !rest.isEmpty && rest.all Char.isDigit then some (-(digits_to_nat rest : Int))
    else none
  | '+' :: rest =>
    if !rest.isEmpty && rest.all Char.isDigit then some (digits_to_nat rest : Int)
    else none
  | l =>
    if l.all Char.isDigit then some (digits_to_nat l : Int) else none

/-- Python `s[:n]` character slicing. -/
def str_take (s : String) (n : Nat) : String :=
  String.mk (s.data.take n)

/-- A Python value appearing in the loosely-typed quality dicts: either an
int or a str. -/
inductive PyVal where
  | int (n : Int)
  | str (s : String)
deriving DecidableEq, Repr

/-- Python truthiness of an optional value (`None`, `0` and `""` are falsy). -/
def py_truthy : Option PyVal → Bool
  | none => false
  | some (.int n) => n != 0
  | some (.str s) => s != ""

/-- Python `int(v)` returning `None` on `ValueError`/`TypeError`
(as in `parse_quality`'s `try`/`except`). -/
def py_to_int : PyVal → Option Int
  | .int n => some n
  | .str s => py_str_to_int s

/-- Python `str(v)` for the values that reach f-strings in the detector. -/
def py_str : PyVal → String
  | .int n => toString n
  | .str s => s

/-- Render an optional Python value the way an f-string does (`None` included). -/
def opt_py_str : Option PyVal → String
  | none => "None"
  | some v => py_str v

/-! ## Plex XML metadata model (scanner.py `_parse_xml_batch`)

A `<Stream>` element is modelled by the attributes the scanner reads;
an absent attribute is `none`. -/

structure PlexStream where
  streamType : Option String := none
  DOVIProfile : Option String := none
  DOVIBLPresent : Option String := none
  DOVIELPresent : Option String := none
  codec : Option String := none
  title : Option String := none
  displayTitle : Option String := none
  extendedDisplayTitle : Option String := none
  audioChannelLayout : Option String := none
  bitrate : Option String := none
deriving DecidableEq, Repr

structure PlexPart where
  size : Option String := none
deriving DecidableEq, Repr

/-- A `<Video>` element: the attributes read at scanner.py lines 438-462 plus
its descendant `<Release>/@year` values, `<Part>`s and `<Stream>`s. -/
structure PlexVideo where
  ratingKey : Option String := none
  title : Option String := none
  year : Option String := none
  originallyAvailableAt : Option String := none
  releaseYears : List String := []
  parts : List PlexPart := []
  streams : List PlexStream := []
deriving DecidableEq, Repr

/-- The capability fields of `media_info` that the database write and the
claims consume (scanner.py lines 493-528). -/
structure MediaInfo where
  title : String
  year : Option String
  dv_profile : Option String
  dv_fel : Bool
  has_atmos : Bool
  file_size : Option Int
deriving DecidableEq, Repr

/-- True when the attribute string is absent or empty (Python falsiness of
`video.get(...)`). -/
def attr_falsy : Option String → Bool
  | none => true
  | some s => s == ""

/-- Year extraction: `@year`, else first `<Release>/@year`, else the prefix of
`@originallyAvailableAt` before the first dash (scanner.py lines 443-451). -/
def extract_year (v : PlexVideo) : Option String :=
  let y1 := v.year
  let y2 := if attr_falsy y1 then v.releaseYears.head? else y1
  if attr_falsy y2 then
    match v.originallyAvailableAt with
    | some s => ((s.splitOn "-").head?).getD "" |> some
    | none => y2
  else y2

/-- First `<Part>` with a truthy `size` attribute, converted by `int(...)`
(scanner.py lines 457-461). -/
def extract_file_size (parts : List PlexPart) : Option Int :=
  match parts.find? (fun p => !attr_falsy p.size) with
  | some p => py_str_to_int (p.size.getD "")
  | none => none

/-- XPath test `Stream[@streamType="1"][@DOVIProfile="7"][@DOVIELPresent="1"][@DOVIBLPresent="1"]`
(scanner.py lines 506-509). -/
def is_p7_fel_stream (s : PlexStream) : Bool :=
  s.streamType == some "1" && s.DOVIProfile == some "7" &&
    s.DOVIELPresent == some "1" && s.DOVIBLPresent == some "1"

/-- XPath test `Stream[@streamType="1"][@DOVIProfile]` (scanner.py line 516). -/
def is_dv_stream (s : PlexStream) : Bool :=
  s.streamType == some "1" && s.DOVIProfile.isSome

/-- XPath test `Stream[@streamType="2"][@codec="truehd"]` plus the
case-insensitive `atmos` token search over the four attributes
(scanner.py lines 521-526). -/
def is_atmos_stream (s : PlexStream) : Bool :=
  s.streamType == some "2" && s.codec == some "truehd" &&
    ([s.title, s.displayTitle, s.extendedDisplayTitle, s.audioChannelLayout].any
      (fun a => str_has (py_lower (a.getD "")) "atmos"))

/-- Per-`<Video>` body of `PlexDVScanner._parse_xml_batch` (scanner.py lines
438-528): `none` when the element is skipped for a falsy ratingKey or title. -/
def parse_video (v : PlexVideo) : Option (String × MediaInfo) :=
  match v.ratingKey, v.title with
  | some rk, some t =>
    if rk == "" || t == "" then none
    else
      let year := extract_year v
      let file_size := extract_file_size v.parts
      let fel := v.streams.any is_p7_fel_stream
      let dv_profile :=
        if fel then some "7"
        else match v.streams.find? is_dv_stream with
          | some s => s.DOVIProfile
          | none => none
      let has_atmos := v.streams.any is_atmos_stream
      some (rk, ⟨t, year, dv_profile, fel, has_atmos, file_size⟩)
  | _, _ => none

/-! ## Movie database (scanner.py `MovieDatabase`) -/

/-- The JSON `extra_data` blob fields that later operations read back
(`$.year` in `find_movie_in_db`, plus the display fields). -/
structure ExtraData where
  year : Option String := none
  file_size : Option Int := none
  video_bitrate : Option String := none
  resolution : Option String := none
deriving DecidableEq, Repr

/-- A row of the `movies` table. `dv_fel`/`has_atmos` are stored as 0/1
INTEGER columns and modelled as Bool. -/
structure MovieRow where
  rating_key : String
  title : String
  dv_profile : Option String
  dv_fel : Bool
  has_atmos : Bool
  last_updated : String
  extra_data : Option ExtraData
deriving DecidableEq, Repr

/-- `MovieDatabase.update_movie` (scanner.py lines 95-118): SQLite
`INSERT ... ON CONFLICT(rating_key) DO UPDATE` where every column, including
`last_updated`, is set from the incoming values. The fresh
`datetime.now().isoformat(timespec=...)` timestamp is the `timestamp`
parameter. -/
def update_movie (db : List MovieRow) (rating_key title : String)
    (dv_profile : Option String) (dv_fel has_atmos : Bool)
    (extra_data : Option ExtraData) (timestamp : String) : List MovieRow :=
  let row : MovieRow :=
    ⟨rating_key, title, dv_profile, dv_fel, has_atmos, timestamp, extra_data⟩
  if db.any (fun r => r.rating_key == rating_key) then
    db.map (fun r => if r.rating_key == rating_key then row else r)
  else db ++ [row]

/-- The `extra_data` dict built by `scan_library_for_dv` (scanner.py lines
574-581) from a parsed `media_info`. -/
def scan_extra_data (mi : MediaInfo) : ExtraData :=
  { year := mi.year, file_size := mi.file_size, video_bitrate := none,
    resolution := none }

/-- Databases reachable through scan writes: `scan_library_for_dv` calls
`update_movie` only with fields of a `media_info` produced by
`_parse_xml_batch` (scanner.py lines 583-590); the row title comes from the
Plex listing (`movie.title`), the timestamp from the wall clock, both
arbitrary here. -/
inductive ScanReach : List MovieRow → Prop where
  | empty : ScanReach []
  | step (db : List MovieRow) (v : PlexVideo) (rk : String) (mi : MediaInfo)
      (plexTitle timestamp : String) (h : ScanReach db)
      (hp : parse_video v = some (rk, mi)) :
      ScanReach (update_movie db rk plexTitle mi.dv_profile mi.dv_fel
        mi.has_atmos (some (scan_extra_data mi)) timestamp)

/-! ## Upgrade detector (integrations/upgrade_detector.py) -/

/-- The notification settings dict: `none` models an absent key, read through
`config.get(key, default)` at each use site. -/
structure NotificationConfig where
  notify_fel : Option Bool := none
  notify_fel_duplicates : Option Bool := none
  notify_fel_from_p5 : Option Bool := none
  notify_fel_from_hdr : Option Bool := none
  notify_dv : Option Bool := none
  notify_dv_from_hdr : Option Bool := none
  notify_dv_profile_upgrades : Option Bool := none
  notify_atmos : Option Bool := none
  notify_atmos_only_if_no_atmos : Option Bool := none
  notify_atmos_with_dv_upgrade : Option Bool := none
  notify_resolution : Option Bool := none
  notify_resolution_only_upgrades : Option Bool := none
deriving DecidableEq, Repr

/-- A raw quality dict as fed to `parse_quality`: each field is `none` when
the key is absent. -/
structure RawQuality where
  dv_profile : Option PyVal := none
  dv_fel : Option Bool := none
  is_fel : Option Bool := none
  has_atmos : Option Bool := none
  resolution : Option String := none
  file_size : Option PyVal := none
  bitrate : Option PyVal := none
deriving DecidableEq, Repr

/-- The dict returned by `UpgradeDetector.parse_quality`. -/
structure ParsedQuality where
  has_dv : Bool
  dv_profile : Option PyVal
  is_fel : Bool
  has_atmos : Bool
  resolution : String
  file_size : PyVal
  bitrate : PyVal
deriving DecidableEq, Repr

/-- `UpgradeDetector.parse_quality` (upgrade_detector.py lines 110-135).
A truthy `dv_profile` is passed through `int(...)` and becomes `None` on a
conversion error; a falsy one is left as it came in. -/
def parse_quality (q : RawQuality) : ParsedQuality :=
  let dv_profile : Option PyVal :=
    if py_truthy q.dv_profile then
      match py_to_int ((q.dv_profile).getD (.int 0)) with
      | some n => some (.int n)
      | none => none
    else q.dv_profile
  { has_dv := dv_profile.isSome
    dv_profile := dv_profile
    is_fel := q.dv_fel.getD false || q.is_fel.getD false
    has_atmos := q.has_atmos.getD false
    resolution := py_lower (q.resolution.getD "unknown")
    file_size := q.file_size.getD (.int 0)
    bitrate := q.bitrate.getD (.int 0) }

/-- Python `a > b` for the profile values compared under truthiness guards.
A mixed-type comparison raises `TypeError` in Python 3; it is unreachable in
the properties proved here and modelled as `false`. -/
def py_gt : PyVal → PyVal → Bool
  | .int a, .int b => a > b
  | .str a, .str b => b < a
  | _, _ => false

/-- Optional-value comparison `new > current` used after the
`if new and current` truthiness guards. -/
def opt_py_gt (a b : Option PyVal) : Bool :=
  py_gt (a.getD (.int 0)) (b.getD (.int 0))

/-- `UpgradeDetector._resolution_matches` (upgrade_detector.py lines 200-221). -/
def resolution_matches (res1 res2 : String) : Bool :=
  let aliasLists : List (List String) :=
    [["hd", "720p"], ["full hd", "fhd", "1080p"],
     ["4k", "uhd", "2160p", "4k uhd"], ["8k", "4320p"]]
  let r1 := py_lower res1
  let r2 := py_lower res2
  if r1 == r2 then true
  else aliasLists.any (fun al => al.contains r1 && al.contains r2)

/-- `UpgradeDetector.is_duplicate` (upgrade_detector.py lines 137-164). -/
def is_duplicate (current new : ParsedQuality) : Bool :=
  if current.dv_profile != new.dv_profile then false
  else if current.is_fel != new.is_fel then false
  else if current.has_atmos != new.has_atmos then false
  else if !resolution_matches current.resolution new.resolution then false
  else true

/-- The `resolution_order` rank table (upgrade_detector.py lines 177-190),
`.get(res, 0)`. -/
def resolution_rank (res : String) : Nat :=
  if res == "unknown" then 0
  else if res == "sd" then 1
  else if res == "480p" then 1
  else if res == "720p" then 2
  else if res == "hd" then 2
  else if res == "1080p" then 3
  else if res == "full hd" then 3
  else if res == "fhd" then 3
  else if res == "2160p" then 4
  else if res == "4k" then 4
  else if res == "uhd" then 4
  else if res == "8k" then 5
  else 0

/-- `UpgradeDetector.is_resolution_upgrade` (upgrade_detector.py lines 166-198). -/
def is_resolution_upgrade (current new : ParsedQuality) : Bool :=
  resolution_rank (py_lower new.resolution) > resolution_rank (py_lower current.resolution)

/-- `UpgradeDetector.is_notification_worthy` (upgrade_detector.py lines
27-108), translated branch for branch; reason strings are the source's
f-string renderings. -/
def is_notification_worthy (cfg : NotificationConfig)
    (current_quality new_quality : RawQuality) : Bool × String :=
  let current := parse_quality current_quality
  let new := parse_quality new_quality
  if is_duplicate current new then
    (false, "Already have this exact quality")
  else
    let felStep : Option (Bool × String) :=
      if cfg.notify_fel.getD true then
        if new.is_fel then
          if current.is_fel then
            if !(cfg.notify_fel_duplicates.getD false) then
              some (false, "Already have P7 FEL version")
            else
              some (true, "Additional P7 FEL copy (per settings)")
          else
            if current.has_dv then
              if cfg.notify_fel_from_p5.getD true then
                some (true, "Upgrade: DV P" ++ opt_py_str current.dv_profile ++ " → P7 FEL ⭐")
              else none
            else
              if cfg.notify_fel_from_hdr.getD true then
                some (true, "Upgrade: HDR10/SDR → P7 FEL ⭐")
              else none
        else none
      else none
    match felStep with
    | some r => r
    | none =>
      let dvStep : Option (Bool × String) :=
        if cfg.notify_dv.getD false then
          if new.has_dv && !current.has_dv then
            if cfg.notify_dv_from_hdr.getD true then
              some (true, "Upgrade: No DV → DV P" ++ opt_py_str new.dv_profile)
            else none
          else none
        else none
      match dvStep with
      | some r => r
      | none =>
        let dvProfileStep : Option (Bool × String) :=
          if cfg.notify_dv.getD false then
            if cfg.notify_dv_profile_upgrades.getD true then
              if new.has_dv && current.has_dv then
                if py_truthy new.dv_profile && py_truthy current.dv_profile then
                  if opt_py_gt new.dv_profile current.dv_profile then
                    some (true, "Upgrade: DV P" ++ opt_py_str current.dv_profile ++
                      " → P" ++ opt_py_str new.dv_profile)
                  else none
                else none
              else none
            else none
          else none
        match dvProfileStep with
        | some r => r
        | none =>
          let atmosStep : Option (Bool × String) :=
            if cfg.notify_atmos.getD false then
              if new.has_atmos && !current.has_atmos then
                if cfg.notify_atmos_only_if_no_atmos.getD true then
                  let combo : Option (Bool × String) :=
                    if new.has_dv && current.has_dv then
                      if py_truthy new.dv_profile && py_truthy current.dv_profile then
                        if opt_py_gt new.dv_profile current.dv_profile then
                          if cfg.notify_atmos_with_dv_upgrade.getD true then
                            some (true, "Combo upgrade: DV P" ++
                              opt_py_str current.dv_profile ++ " → P" ++
                              opt_py_str new.dv_profile ++ " + Atmos 🎵")
                          else none
                        else none
                      else none
                    else none
                  match combo with
                  | some r => some r
                  | none => some (true, "Added: TrueHD Atmos 🎵")
                else none
              else none
            else none
          match atmosStep with
          | some r => r
          | none =>
            let resStep : Option (Bool × String) :=
              if cfg.notify_resolution.getD false then
                if is_resolution_upgrade current new then
                  if cfg.notify_resolution_only_upgrades.getD true then
                    some (true, "Upgrade: " ++ current.resolution ++ " → " ++ new.resolution)
                  else none
                else none
              else none
            match resStep with
            | some r => r
            | none => (false, "Not an upgrade per notification settings")

/-! ## Torrent title quality sketch (upgrade_detector.py `parse_torrent_quality`) -/

/-- The quality dict built by `parse_torrent_quality`, with its fixed key
insertion order `dv_profile, is_fel, has_atmos, resolution`. -/
structure TorrentQuality where
  dv_profile : Option Int
  is_fel : Bool
  has_atmos : Bool
  resolution : String
deriving DecidableEq, Repr

/-- Match of the regex `(?:PROFILE\s?|P)([58])` at the head of the list:
first alternative `PROFILE` with greedy optional whitespace, then the
captured digit; second alternative a bare `P`. -/
def profile58_at (l : List Char) : Option Char :=
  if chars_start ['P', 'R', 'O', 'F', 'I', 'L', 'E'] l then
    match l.drop 7 with
    | c :: d :: _ =>
      if is_py_space c && (d == '5' || d == '8') then some d
      else if c == '5' || c == '8' then some c
      else none
    | [c] => if c == '5' || c == '8' then some c else none
    | [] => none
  else
    match l with
    | 'P' :: d :: _ => if d == '5' || d == '8' then some d else none
    | _ => none

/-- `re.search` for `(?:PROFILE\s?|P)([58])`: leftmost match over all start
positions. -/
def profile58_search : List Char → Option Char
  | [] => none
  | l@(_ :: t) =>
    match profile58_at l with
    | some d => some d
    | none => profile58_search t

/-- `UpgradeDetector.parse_torrent_quality` (upgrade_detector.py lines
223-276), step for step over the uppercased title. -/
def parse_torrent_quality (torrent_title : String) : TorrentQuality :=
  let U := py_upper torrent_title
  let q0 : TorrentQuality :=
    { dv_profile := none, is_fel := false, has_atmos := false, resolution := "unknown" }
  let q1 :=
    if str_has U "PROFILE 7" || str_has U "P7" || str_has U "PROFILE7" then
      { q0 with dv_profile := some 7 }
    else q0
  let q2 :=
    if str_has U "FEL" || str_has U "BL+EL" || str_has U "BL EL" then
      { q1 with is_fel := true
                dv_profile := if !py_truthy (q1.dv_profile.map .int) then some 7
                              else q1.dv_profile }
    else q1
  let q3 :=
    if !py_truthy (q2.dv_profile.map .int) then
      match profile58_search U.data with
      | some d => { q2 with dv_profile := some (d.toNat - 48 : Int) }
      | none =>
        if str_has U "DOLBY VISION" || str_has U "DV" || str_has U "DOVI" then
          { q2 with dv_profile := some 5 }
        else q2
    else q2
  let q4 :=
    if str_has U "ATMOS" || str_has U "TRUEHD ATMOS" then
      { q3 with has_atmos := true }
    else q3
  if str_has U "2160P" || str_has U "4K" || str_has U "UHD" then
    { q4 with resolution := "2160p" }
  else if str_has U "1080P" || str_has U "FHD" then
    { q4 with resolution := "1080p" }
  else if str_has U "720P" || str_has U "HD" then
    { q4 with resolution := "720p" }
  else if str_has U "480P" || str_has U "SD" then
    { q4 with resolution := "480p" }
  else q4

/-- The raw quality dict a `TorrentQuality` amounts to when handed to
`is_notification_worthy` (its keys are `dv_profile`, `is_fel`, `has_atmos`,
`resolution`; there is no `dv_fel` key). -/
def torrent_to_raw (q : TorrentQuality) : RawQuality :=
  { dv_profile := q.dv_profile.map .int
    dv_fel := none
    is_fel := some q.is_fel
    has_atmos := some q.has_atmos
    resolution := some q.resolution
    file_size := none
    bitrate := none }

/-! ## Library lookup (download_manager.py `find_movie_in_db`) -/

/-- Predicate of the title+year query `LOWER(title) = ? AND
json_extract(extra_data, '$.year') = str(year)`. -/
def row_matches_title_year (search_title : String) (y : Int) (r : MovieRow) : Bool :=
  py_lower r.title == search_title &&
    ((r.extra_data.bind ExtraData.year) == some (toString y))

/-- Predicate of the title-only query `LOWER(title) = ?`. -/
def row_matches_title (search_title : String) (r : MovieRow) : Bool :=
  py_lower r.title == search_title

/-- `DownloadManager.find_movie_in_db` (download_manager.py lines 266-312):
the title+year query runs under the `if year:` truthiness guard and, when it
finds nothing, execution falls through to the title-only query
unconditionally. -/
def find_movie_in_db (db : List MovieRow) (title : String) (year : Option Int) :
    Option MovieRow :=
  let search_title := py_strip (py_lower title)
  let fallback := db.find? (row_matches_title search_title)
  match year with
  | some y =>
    if y != 0 then
      match db.find? (row_matches_title_year search_title y) with
      | some r => some r
      | none => fallback
    else fallback
  | none => fallback

/-! ## Pending download workflow (scanner.py tables, download_manager.py,
telegram_handler.py) -/

/-- The `download_request` dict built in `process_ipt_discovery`
(download_manager.py lines 107-119); also the parsed `download_data` JSON. -/
structure DownloadRequest where
  request_id : String
  movie_title : String
  year : Option Int
  current_quality : String
  new_quality : String
  upgrade_reason : String
  torrent_url : Option String
  torrent_title : String
  target_folder : String
  quality_type : String
  created_at : String
deriving DecidableEq, Repr

/-- A row of the `pending_downloads` table as written by
`store_pending_download` (scanner.py lines 148-168). -/
structure PendingRow where
  request_id : String
  movie_title : Option String
  year : Option Int
  torrent_url : Option String
  target_folder : Option String
  quality_type : Option String
  status : String
  telegram_message_id : Option Nat := none
  download_data : Option DownloadRequest
  created_at : String
  approved_at : Option String := none
  completed_at : Option String := none
deriving DecidableEq, Repr

/-- A row of the `download_history` table as written by
`mark_download_started` (scanner.py lines 210-221). -/
structure HistoryRow where
  request_id : String
  movie_title : Option String
  quality_type : Option String
  torrent_hash : Option String
  status : String
  started_at : String
deriving DecidableEq, Repr

/-- The two workflow tables of the store. -/
structure WorkflowDb where
  pending : List PendingRow
  history : List HistoryRow
deriving DecidableEq, Repr

/-- `MovieDatabase.store_pending_download` (scanner.py lines 148-168): a plain
`INSERT` with status `'pending'`; a duplicate `request_id` violates the
PRIMARY KEY and raises (`Except.error`). -/
def store_pending_download (db : WorkflowDb) (request_id : String)
    (dd : DownloadRequest) : Except String WorkflowDb :=
  if db.pending.any (fun r => r.request_id == request_id) then
    .error "UNIQUE constraint failed: pending_downloads.request_id"
  else
    .ok { db with pending := db.pending ++
      [{ request_id := request_id
         movie_title := some dd.movie_title
         year := dd.year
         torrent_url := dd.torrent_url
         target_folder := some dd.target_folder
         quality_type := some dd.quality_type
         status := "pending"
         download_data := some dd
         created_at := dd.created_at }] }

/-- `MovieDatabase.get_pending_download` (scanner.py lines 170-183). -/
def get_pending_download (db : WorkflowDb) (request_id : String) :
    Option DownloadRequest :=
  match db.pending.find? (fun r => r.request_id == request_id) with
  | some r => r.download_data
  | none => none

/-- `MovieDatabase.mark_download_started` (scanner.py lines 195-223): set the
pending row to `'downloading'` with `approved_at`, then append a history row
from the stored `download_data`. -/
def mark_download_started (db : WorkflowDb) (request_id : String)
    (torrent_hash : Option String) (now : String) : WorkflowDb :=
  let pending := db.pending.map (fun r =>
    if r.request_id == request_id then
      { r with status := "downloading", approved_at := some now }
    else r)
  let db1 : WorkflowDb := { db with pending := pending }
  match get_pending_download db1 request_id with
  | some dd =>
    { db1 with history := db1.history ++
      [{ request_id := request_id
         movie_title := some dd.movie_title
         quality_type := some dd.quality_type
         torrent_hash := torrent_hash
         status := "downloading"
         started_at := now }] }
  | none => db1

/-- `MovieDatabase.delete_pending_download` (scanner.py lines 245-250). -/
def delete_pending_download (db : WorkflowDb) (request_id : String) : WorkflowDb :=
  { db with pending := db.pending.filter (fun r => !(r.request_id == request_id)) }

/-! ## qBittorrent client (integrations/qbittorrent.py) -/

/-- The observable outcome of the single `POST /api/v2/torrents/add` attempt:
a 200 `Ok.` reply (with the hash found by the follow-up `get_torrents`
lookup), a 200 reply with another body, an HTTP error status, or a raised
exception (transport failure). -/
inductive AddOutcome where
  | ok (hash : Option String)
  | failText (t : String)
  | httpErr (status : Nat)
  | exc (msg : String)
deriving DecidableEq, Repr

/-- The dict returned by `add_torrent`. -/
structure QbtResult where
  success : Bool
  hash : Option String := none
  error : Option String := none
deriving DecidableEq, Repr

/-- `QBittorrentClient.add_torrent` (qbittorrent.py lines 78-142): exactly one
HTTP attempt is made per call; the head of `env` is that attempt's outcome and
an exception is caught into `{'success': False, 'error': str(e)}`. There is
no retry loop in the source. -/
def add_torrent (env : List AddOutcome) : QbtResult × List AddOutcome :=
  match env with
  | [] => ({ success := false, error := some "no response" }, [])
  | o :: rest =>
    match o with
    | .ok h => ({ success := true, hash := h }, rest)
    | .failText t => ({ success := false, error := some t }, rest)
    | .httpErr s => ({ success := false, error := some ("HTTP " ++ toString s) }, rest)
    | .exc m => ({ success := false, error := some m }, rest)

/-- Outbound Telegram notifications the coordinator sends. -/
inductive Notice where
  | started (movie_title quality folder : String)
  | failed (movie_title error : String)
deriving DecidableEq, Repr

/-- The result dict of `execute_download`. -/
structure ExecResult where
  success : Bool
  action : Option String := none
  error : Option String := none
deriving DecidableEq, Repr

/-- `DownloadManager.execute_download` (download_manager.py lines 147-219).
On a non-approved action it returns immediately; on success it calls
`mark_download_started` and sends a started notice; on failure the store is
not written and one error notice is sent. Returns the result, the store, the
notices sent and the unconsumed HTTP outcomes. -/
def execute_download (env : List AddOutcome) (db : WorkflowDb)
    (request_id action now : String) :
    ExecResult × WorkflowDb × List Notice × List AddOutcome :=
  if action != "approved" then
    ({ success := true, action := some "declined" }, db, [], env)
  else
    match get_pending_download db request_id with
    | none => ({ success := false, error := some "Download request not found" }, db, [], env)
    | some dd =>
      let (res, env') := add_torrent env
      if res.success then
        let db' := mark_download_started db request_id res.hash now
        ({ success := true }, db',
          [.started dd.movie_title dd.new_quality dd.target_folder], env')
      else
        let err := res.error.getD "Unknown error"
        ({ success := false, error := some err }, db,
          [.failed dd.movie_title err], env')

/-- An entry of the in-memory `pending_downloads` map of
`TelegramDownloadHandler` (message_id → request data). -/
structure TgPending where
  request_id : String
  movie_title : String
deriving DecidableEq, Repr

/-- The result dict of `handle_callback`. -/
structure CallbackResult where
  success : Bool
  action : Option String := none
  request_id : Option String := none
  error : Option String := none
deriving DecidableEq, Repr

/-- The `action == "no"` (decline) branch of
`TelegramDownloadHandler.handle_callback` (telegram_handler.py lines 227-244):
it edits the Telegram message, removes the in-memory map entry and returns a
declined result. The branch contains no database call, so the store `db` is
returned unchanged; neither `delete_pending_download` nor any
status update is invoked on it. -/
def handle_callback_no (tg : List (Nat × TgPending)) (db : WorkflowDb)
    (message_id : Nat) (request_id : String) :
    List (Nat × TgPending) × WorkflowDb × CallbackResult :=
  match tg.find? (fun p => p.1 == message_id) with
  | none =>
    (tg, db, { success := false,
               error := some "Download request expired or already processed" })
  | some _ =>
    (tg.filter (fun p => !(p.1 == message_id)), db,
      { success := true, action := some "declined", request_id := some request_id })

/-! ## Collection verification (scanner.py `verify_collections`) -/

/-- A member of a Plex collection: its rating key (via `_get_movie_key`,
`none` when the item has neither `ratingKey` nor `key`) and title. -/
structure PlexItem where
  key : Option String
  title : String
deriving DecidableEq, Repr

/-- Membership test `movie_key not in map` (scanner.py lines 907-908): a
`none` key is never in the map. -/
def item_in_map (qual_keys : List String) (m : PlexItem) : Bool :=
  match m.key with
  | some k => qual_keys.contains k
  | none => false

/-- The per-collection body of `PlexDVScanner.verify_collections`
(scanner.py lines 899-930, repeated verbatim for the three collections):
collect the members whose key is not in the scan map, remove each of them,
and report them. No member is ever added. Returns the resulting membership
and the removed items. -/
def verify_collection (membership : List PlexItem) (qual_keys : List String) :
    List PlexItem × List PlexItem :=
  let invalid := membership.filter (fun m => !item_in_map qual_keys m)
  (membership.filter (item_in_map qual_keys), invalid)

/-- Keys of `self.dv_movies_map` built during the scan (scanner.py lines
593-596): entries with a truthy `dv_profile`. -/
def scan_dv_keys (scan : List (String × MediaInfo)) : List String :=
  (scan.filter (fun p => !attr_falsy p.2.dv_profile)).map (·.1)

/-- Keys of `self.fel_p7_movies_map` (scanner.py lines 598-600): truthy
profile equal to `'7'` with `dv_fel` set. -/
def scan_fel_p7_keys (scan : List (String × MediaInfo)) : List String :=
  (scan.filter (fun p =>
    !attr_falsy p.2.dv_profile && p.2.dv_profile == some "7" && p.2.dv_fel)).map (·.1)

/-- Keys of `self.atmos_movies_map` (scanner.py lines 602-605). -/
def scan_atmos_keys (scan : List (String × MediaInfo)) : List String :=
  (scan.filter (fun p => p.2.has_atmos)).map (·.1)

/-! ## MD5 (embedding of Python `hashlib.md5(...).hexdigest()` as used by
`DownloadManager.generate_request_id`)

Machine words are `Nat` reduced mod `2^32`. -/

/-- Bitwise NOT of a 32-bit word. -/
def u32not (x : Nat) : Nat := 4294967295 - x

/-- 32-bit left rotation (assumes `x < 2^32`). -/
def rotl32 (x c : Nat) : Nat :=
  ((x <<< c) ||| (x >>> (32 - c))) % 4294967296

def md5F (x y z : Nat) : Nat := (x &&& y) ||| (u32not x &&& z)

def md5G (x y z : Nat) : Nat := (x &&& z) ||| (y &&& u32not z)

def md5H (x y z : Nat) : Nat := x ^^^ y ^^^ z

def md5I (x y z : Nat) : Nat := y ^^^ (x ||| u32not z)

/-- The 64 MD5 sine-derived constants. -/
def md5K : List Nat :=
  [0xd76aa478, 0xe8c7b756, 0x242070db, 0xc1bdceee,
   0xf57c0faf, 0x4787c62a, 0xa8304613, 0xfd469501,
   0x698098d8, 0x8b44f7af, 0xffff5bb1, 0x895cd7be,
   0x6b901122, 0xfd987193, 0xa679438e, 0x49b40821,
   0xf61e2562, 0xc040b340, 0x265e5a51, 0xe9b6c7aa,
   0xd62f105d, 0x02441453, 0xd8a1e681, 0xe7d3fbc8,
   0x21e1cde6, 0xc33707d6, 0xf4d50d87, 0x455a14ed,
   0xa9e3e905, 0xfcefa3f8, 0x676f02d9, 0x8d2a4c8a,
   0xfffa3942, 0x8771f681, 0x6d9d6122, 0xfde5380c,
   0xa4beea44, 0x4bdecfa9, 0xf6bb4b60, 0xbebfbc70,
   0x289b7ec6, 0xeaa127fa, 0xd4ef3085, 0x04881d05,
   0xd9d4d039, 0xe6db99e5, 0x1fa27cf8, 0xc4ac5665,
   0xf4292244, 0x432aff97, 0xab9423a7, 0xfc93a039,
   0x655b59c3, 0x8f0ccc92, 0xffeff47d, 0x85845dd1,
   0x6fa87e4f, 0xfe2ce6e0, 0xa3014314, 0x4e0811a1,
   0xf7537e82, 0xbd3af235, 0x2ad7d2bb, 0xeb86d391]

/-- The 64 per-round left-rotation amounts. -/
def md5S : List Nat :=
  [7, 12, 17, 22, 7, 12, 17, 22, 7, 12, 17, 22, 7, 12, 17, 22,
   5, 9, 14, 20, 5, 9, 14, 20, 5, 9, 14, 20, 5, 9, 14, 20,
   4, 11, 16, 23, 4, 11, 16, 23, 4, 11, 16, 23, 4, 11, 16, 23,
   6, 10, 15, 21, 6, 10, 15, 21, 6, 10, 15, 21, 6, 10, 15, 21]

/-- Little-endian byte decomposition of `n` into `k` bytes. -/
def le_bytes (k n : Nat) : List Nat :=
  (List.range k).map (fun i => (n >>> (8 * i)) % 256)

/-- One 512-bit MD5 compression step on a 64-byte block. -/
def md5_block (st : Nat × Nat × Nat × Nat) (block : List Nat) :
    Nat × Nat × Nat × Nat :=
  let M := (List.range 16).map (fun i =>
    block.getD (4 * i) 0 + 256 * block.getD (4 * i + 1) 0 +
      65536 * block.getD (4 * i + 2) 0 + 16777216 * block.getD (4 * i + 3) 0)
  let step := fun (s : Nat × Nat × Nat × Nat) (i : Nat) =>
    let (a, b, c, d) := s
    let fg : Nat × Nat :=
      if i < 16 then (md5F b c d, i)
      else if i < 32 then (md5G b c d, (5 * i + 1) % 16)
      else if i < 48 then (md5H b c d, (3 * i + 5) % 16)
      else (md5I b c d, (7 * i) % 16)
    let f2 := (fg.1 + a + md5K.getD i 0 + M.getD fg.2 0) % 4294967296
    (d, (b + rotl32 f2 (md5S.getD i 0)) % 4294967296, b, c)
  let r := (List.range 64).foldl step st
  ((st.1 + r.1) % 4294967296, (st.2.1 + r.2.1) % 4294967296,
   (st.2.2.1 + r.2.2.1) % 4294967296, (st.2.2.2 + r.2.2.2) % 4294967296)

/-- Fold the compression function over `n` consecutive 64-byte blocks. -/
def md5_blocks : Nat × Nat × Nat × Nat → List Nat → Nat → Nat × Nat × Nat × Nat
  | st, _, 0 => st
  | st, bs, n + 1 => md5_blocks (md5_block st (bs.take 64)) (bs.drop 64) n

/-- MD5 padding: `0x80`, zeros to 56 mod 64, then the 64-bit little-endian
bit length. -/
def md5_pad (msg : List Nat) : List Nat :=
  let len := msg.length
  let z := (120 - (len + 1) % 64) % 64
  msg ++ [128] ++ List.replicate z 0 ++ le_bytes 8 (8 * len)

/-- The 16-byte MD5 digest of a byte sequence. -/
def md5_digest (msg : List Nat) : List Nat :=
  let padded := md5_pad msg
  let r := md5_blocks (0x67452301, 0xefcdab89, 0x98badcfe, 0x10325476)
    padded (padded.length / 64)
  le_bytes 4 r.1 ++ le_bytes 4 r.2.1 ++ le_bytes 4 r.2.2.1 ++ le_bytes 4 r.2.2.2

def hex_chars : List Char :=
  "0123456789abcdef".data

/-- Two lowercase hex characters of one byte. -/
def byte_hex (b : Nat) : List Char :=
  [hex_chars.getD (b / 16 % 16) '0', hex_chars.getD (b % 16) '0']

/-- `hashlib.md5(s.encode()).hexdigest()` for ASCII text (each character is
one byte, as in every string this program hashes). -/
def md5hex (s : String) : String :=
  String.mk ((md5_digest (s.data.map Char.toNat)).map byte_hex).flatten

/-! ## Request ids and title parsing (download_manager.py) -/

def py_bool_str : Bool → String
  | true => "True"
  | false => "False"

def py_repr_opt_int : Option Int → String
  | none => "None"
  | some n => toString n

/-- Python `str(quality)` for the dict built by `parse_torrent_quality`,
whose insertion order is `dv_profile, is_fel, has_atmos, resolution`. -/
def py_repr_torrent_quality (q : TorrentQuality) : String :=
  "\x7b\x27dv_profile\x27: " ++ py_repr_opt_int q.dv_profile ++
    ", \x27is_fel\x27: " ++ py_bool_str q.is_fel ++
    ", \x27has_atmos\x27: " ++ py_bool_str q.has_atmos ++
    ", \x27resolution\x27: \x27" ++ q.resolution ++ "\x27\x7d"

/-- `DownloadManager.generate_request_id` (download_manager.py lines 400-403):
the first 12 hex characters of the MD5 of
`f"{movie_title}{quality}{time.time()}"`. The wall-clock reading
`time.time()` is passed in as its Python string rendering `now_repr`. -/
def generate_request_id (movie_title : String) (quality : TorrentQuality)
    (now_repr : String) : String :=
  let unique_str := movie_title ++ py_repr_torrent_quality quality ++ now_repr
  str_take (md5hex unique_str) 12

/-- Character class `[.\s]` of pattern 1. -/
def sep1 (c : Char) : Bool := c == '.' || is_py_space c

/-- Match of `[.\s]+(\d{4})[.\s]` at the head of `rest`: the separator run
must be non-empty (digits and the class are disjoint, so the greedy run is
the only candidate), then four digits, then one more separator. -/
def pattern1_at (rest : List Char) : Option String :=
  if (rest.takeWhile sep1).isEmpty then none
  else
    let after := rest.dropWhile sep1
    let ds := after.take 4
    if ds.length == 4 && ds.all Char.isDigit then
      match after.drop 4 with
      | c :: _ => if sep1 c then some (String.mk ds) else none
      | [] => none
    else none

/-- `re.search(r'^(.+?)[.\s]+(\d{4})[.\s]', title)`: the lazy group 1 takes
the shortest non-empty prefix whose remainder matches the rest of the
pattern. -/
def regex1_go : List Char → List Char → Option (String × String)
  | _, [] => none
  | pre_rev, c :: t =>
    match pattern1_at t with
    | some y => some (String.mk (c :: pre_rev).reverse, y)
    | none => regex1_go (c :: pre_rev) t

/-- Match of `\s+(\d{4})` at the head of `rest`. -/
def pattern2_at (rest : List Char) : Option String :=
  if (rest.takeWhile is_py_space).isEmpty then none
  else
    let ds := (rest.dropWhile is_py_space).take 4
    if ds.length == 4 && ds.all Char.isDigit then some (String.mk ds) else none

/-- `re.search(r'^(.+?)\s+(\d{4})', title)`. -/
def regex2_go : List Char → List Char → Option (String × String)
  | _, [] => none
  | pre_rev, c :: t =>
    match pattern2_at t with
    | some y => some (String.mk (c :: pre_rev).reverse, y)
    | none => regex2_go (c :: pre_rev) t

/-- `re.sub(r'\s+', ' ', s)`: squeeze whitespace runs to single spaces. -/
def squeeze_ws (s : String) : String :=
  let r := s.data.foldl (fun (acc : List Char × Bool) c =>
    if is_py_space c then
      if acc.2 then acc else (' ' :: acc.1, true)
    else (c :: acc.1, false)) ([], false)
  String.mk r.1.reverse

/-- `DownloadManager.parse_torrent_title` (download_manager.py lines 221-264):
pattern 1 cleans the title (dots to spaces, strip, squeeze); pattern 2 only
strips. The year group is four digits, so `int(...)` never fails. -/
def parse_torrent_title (title : String) : Option (String × Int) :=
  match regex1_go [] title.data with
  | some (g1, y) =>
    some (squeeze_ws (py_strip (String.mk (g1.data.map (fun c => if c == '.' then ' ' else c)))), (digits_to_nat y.data : Int))
  | none =>
    match regex2_go [] title.data with
    | some (g1, y) => some (py_strip g1, (digits_to_nat y.data : Int))
    | none => none

/-! ## Discovery pipeline (download_manager.py `process_ipt_discovery`) -/

/-- `DownloadManager.get_current_quality` (download_manager.py lines 314-343):
the current-quality dict read off a movie row; a missing or unparseable
`extra_data` acts as the empty dict. -/
def get_current_quality (movie : MovieRow) : RawQuality :=
  let extra := movie.extra_data.getD {}
  { dv_profile := movie.dv_profile.map .str
    dv_fel := some movie.dv_fel
    is_fel := none
    has_atmos := some movie.has_atmos
    file_size := extra.file_size.map .int
    bitrate := extra.video_bitrate.map .str
    resolution := some (extra.resolution.getD "unknown") }

/-- Tenths of a gigabyte with ties to even, modelling the `f"{x:.1f}"`
rendering of `file_size / 1024**3` (the source rounds the nearest double;
this rounds the exact quotient, which agrees except within an ulp of a
half-tenth boundary). -/
def gb_tenths (fs : Int) : Int :=
  let n := fs * 10
  let d : Int := 1073741824
  let q := n / d
  let r := n % d
  if 2 * r < d then q
  else if 2 * r > d then q + 1
  else if q % 2 == 0 then q else q + 1

/-- Render `gb_tenths` as the decimal `f"{x:.1f} GB"` text. -/
def gb_str (fs : Int) : String :=
  let t := gb_tenths fs
  toString (t / 10) ++ "." ++ toString (t % 10) ++ " GB"

/-- `DownloadManager.format_current_quality` (download_manager.py lines
345-373). -/
def format_current_quality (q : RawQuality) : String :=
  let l1 :=
    if py_truthy q.dv_profile then
      ["• DV Profile " ++ opt_py_str q.dv_profile ++
        (if q.dv_fel.getD false then " FEL" else " MEL")]
    else ["• HDR10 / SDR"]
  let l2 := l1 ++
    (if py_truthy q.file_size then
      [ "• " ++ gb_str ((py_to_int (q.file_size.getD (.int 0))).getD 0)]
     else [])
  let l3 := l2 ++
    (if py_truthy q.bitrate then ["• " ++ py_str (q.bitrate.getD (.int 0))] else [])
  let res := (q.resolution.getD "")
  let l4 := l3 ++ (if res != "" && res != "unknown" then ["• " ++ res] else [])
  let l5 := l4 ++ (if q.has_atmos.getD false then ["• TrueHD Atmos ✓"] else [])
  if l5.isEmpty then "Unknown" else String.intercalate "\n" l5

/-- `DownloadManager.format_new_quality` (download_manager.py lines 375-398). -/
def format_new_quality (q : TorrentQuality) : String :=
  let l1 :=
    if py_truthy (q.dv_profile.map .int) then
      [if q.is_fel then
        "• DV Profile " ++ py_repr_opt_int q.dv_profile ++ " FEL (BL+EL+RPU)"
       else "• DV Profile " ++ py_repr_opt_int q.dv_profile]
    else ["• HDR10"]
  let l2 := l1 ++
    (if q.resolution != "" && q.resolution != "unknown" then ["• " ++ q.resolution] else [])
  let l3 := l2 ++ (if q.has_atmos then ["• TrueHD Atmos ✓"] else [])
  String.intercalate "\n" (l3 ++ ["• From IPTorrents"])

/-- Outcome of `process_ipt_discovery`. -/
inductive DiscoStatus where
  | skip (reason : String)
  | error (reason : String)
  | pending_approval (request_id : String) (message_id : Nat)
deriving DecidableEq, Repr

/-- `DownloadManager.process_ipt_discovery` (download_manager.py lines
47-145). External replies are parameters: `radarr_folder` is
`radarr.get_movie_folder`'s answer, `message_id` is
`telegram.send_approval_request`'s answer, `now_repr` is the `time.time()`
reading hashed into the request id and `now_iso` the `datetime.now()`
isoformat stored as `created_at`. The movies row has no `year` column, so the
stored `'year': movie.get('year')` is always `None`. A PRIMARY KEY violation
in the insert is caught by the outer `except` as an error status. -/
def process_ipt_discovery (db : List MovieRow) (cfg : NotificationConfig)
    (radarr_folder : Option String) (message_id : Option Nat)
    (wdb : WorkflowDb) (torrent_title : String) (torrent_url : Option String)
    (now_repr now_iso : String) : WorkflowDb × DiscoStatus :=
  match parse_torrent_title torrent_title with
  | none => (wdb, .skip "Could not parse torrent title")
  | some (t, y) =>
    match find_movie_in_db db t (some y) with
    | none => (wdb, .skip "Movie not in your Plex library")
    | some movie =>
      let current_quality := get_current_quality movie
      let new_quality := parse_torrent_quality torrent_title
      let notifyReason :=
        is_notification_worthy cfg current_quality (torrent_to_raw new_quality)
      if !notifyReason.1 then (wdb, .skip notifyReason.2)
      else
        match radarr_folder with
        | none => (wdb, .error "Movie not found in Radarr or no folder path")
        | some folder =>
          let request_id := generate_request_id movie.title new_quality now_repr
          let dd : DownloadRequest :=
            { request_id := request_id
              movie_title := movie.title
              year := none
              current_quality := format_current_quality current_quality
              new_quality := format_new_quality new_quality
              upgrade_reason := notifyReason.2
              torrent_url := torrent_url
              torrent_title := torrent_title
              target_folder := folder
              quality_type :=
                if new_quality.is_fel then "fel"
                else if py_truthy (new_quality.dv_profile.map .int) then "dv"
                else "hdr"
              created_at := now_iso }
          match store_pending_download wdb request_id dd with
          | .error e => (wdb, .error e)
          | .ok wdb2 =>
            match message_id with
            | some m => (wdb2, .pending_approval request_id m)
            | none => (wdb2, .error "Failed to send Telegram notification")

/-! ## Helper lemmas -/

/-- The capability fields a successful `parse_video` assigns. -/
theorem parse_video_fields (v : PlexVideo) (rk : String) (mi : MediaInfo)
    (h : parse_video v = some (rk, mi)) :
    mi.dv_fel = v.streams.any is_p7_fel_stream ∧
      mi.dv_profile = (if v.streams.any is_p7_fel_stream then some "7"
        else match v.streams.find? is_dv_stream with
          | some s => s.DOVIProfile
          | none => none) := by
  rcases hrk : v.ratingKey with _ | rk0 <;> rcases ht : v.title with _ | t0 <;>
    simp [parse_video, hrk, ht] at h
  rcases h with ⟨hcond, h1, h2⟩
  subst h2
  refine ⟨rfl, ?_⟩
  by_cases hfel : v.streams.any is_p7_fel_stream = true
  · rw [if_pos (List.any_eq_true.mp hfel), if_pos hfel]
  · rw [if_neg (fun hx => hfel (List.any_eq_true.mpr hx)), if_neg hfel]

/-- Rows of an upsert result: the fresh row or an untouched old one. -/
theorem mem_update_movie {db : List MovieRow} {rk t : String}
    {p : Option String} {f a : Bool} {e : Option ExtraData} {ts : String}
    {r : MovieRow} (h : r ∈ update_movie db rk t p f a e ts) :
    r = ⟨rk, t, p, f, a, ts, e⟩ ∨ r ∈ db := by
  unfold update_movie at h
  split at h
  · obtain ⟨r', hr', heq⟩ := List.mem_map.mp h
    by_cases hk : (r'.rating_key == rk) = true
    · rw [if_pos hk] at heq; left; exact heq.symm
    · rw [if_neg hk] at heq; right; exact heq ▸ hr'
  · rcases List.mem_append.mp h with h' | h'
    · right; exact h'
    · left; simpa using h'

/-! ## C1 -/

/-- A video stream carrying `DOVIProfile="7"` with only the BL flag present. -/
def video_bl_only : PlexVideo :=
  { ratingKey := some "42", title := some "Example",
    streams := [{ streamType := some "1", DOVIProfile := some "7",
                  DOVIBLPresent := some "1" }] }

/-- C1: for every parsed Plex metadata document, the extractor sets `dv_fel`
to true iff some video stream element has `DOVIProfile="7"`,
`DOVIBLPresent="1"` and `DOVIELPresent="1"`; in particular a stream with
`DOVIProfile="7"` and only the BL flag yields `dv_fel = false`. -/
theorem claim_C1 :
    (∀ (v : PlexVideo) (rk : String) (mi : MediaInfo),
      parse_video v = some (rk, mi) →
      (mi.dv_fel = true ↔ ∃ s ∈ v.streams, s.streamType = some "1" ∧
        s.DOVIProfile = some "7" ∧ s.DOVIBLPresent = some "1" ∧
        s.DOVIELPresent = some "1")) ∧
    (parse_video video_bl_only).map (fun p => p.2.dv_fel) = some false := by
  constructor
  · intro v rk mi h
    rw [(parse_video_fields v rk mi h).1]
    simp only [List.any_eq_true, is_p7_fel_stream, Bool.and_eq_true, beq_iff_eq,
      and_assoc]
    constructor
    · rintro ⟨s, hs, h1, h2, h3, h4⟩; exact ⟨s, hs, h1, h2, h4, h3⟩
    · rintro ⟨s, hs, h1, h2, h3, h4⟩; exact ⟨s, hs, h1, h2, h4, h3⟩
  · rfl

/-- C1 instantiated at a concrete FEL document. -/
theorem claim_C1_witness :
    ((⟨"Ex", none, some "7", true, false, none⟩ : MediaInfo).dv_fel = true ↔
      ∃ s ∈ [({ streamType := some "1", DOVIProfile := some "7",
                DOVIBLPresent := some "1", DOVIELPresent := some "1" } : PlexStream)],
        s.streamType = some "1" ∧ s.DOVIProfile = some "7" ∧
        s.DOVIBLPresent = some "1" ∧ s.DOVIELPresent = some "1") :=
  claim_C1.1
    { ratingKey := some "7", title := some "Ex",
      streams := [{ streamType := some "1", DOVIProfile := some "7",
                    DOVIBLPresent := some "1", DOVIELPresent := some "1" }] }
    "7" ⟨"Ex", none, some "7", true, false, none⟩ rfl

/-! ## C2 -/

/-- A parsed `media_info` sets `dv_profile` to `'7'` whenever it sets
`dv_fel` (scanner.py lines 511-513 assign both in the same branch). -/
theorem parse_video_fel_profile (v : PlexVideo) (rk : String) (mi : MediaInfo)
    (h : parse_video v = some (rk, mi)) (hf : mi.dv_fel = true) :
    mi.dv_profile = some "7" := by
  obtain ⟨h1, h2⟩ := parse_video_fields v rk mi h
  rw [h2, if_pos (h1 ▸ hf)]

/-- C2: every record a scan ever writes satisfies
`dv_fel ⇒ dv_profile = '7'`; the invariant holds in every database reachable
through scan upserts. -/
theorem claim_C2 (db : List MovieRow) (h : ScanReach db) (r : MovieRow)
    (hr : r ∈ db) (hf : r.dv_fel = true) : r.dv_profile = some "7" := by
  induction h with
  | empty => cases hr
  | step db' v rk mi plexTitle ts h' hp ih =>
    rcases mem_update_movie hr with rfl | hmem
    · exact parse_video_fel_profile v rk mi hp hf
    · exact ih hmem

/-- A one-video FEL document for instantiating C2. -/
def video_c2 : PlexVideo :=
  { ratingKey := some "9", title := some "Fel Movie",
    streams := [{ streamType := some "1", DOVIProfile := some "7",
                  DOVIBLPresent := some "1", DOVIELPresent := some "1" }] }

/-- The media info `parse_video` extracts from `video_c2`. -/
def mi_c2 : MediaInfo := ⟨"Fel Movie", none, some "7", true, false, none⟩

/-- C2 applied to the database obtained by scanning `video_c2` into an empty
store. -/
theorem claim_C2_witness :
    (⟨"9", "Fel Movie", some "7", true, false, "t1",
      some (scan_extra_data mi_c2)⟩ : MovieRow).dv_profile = some "7" :=
  claim_C2 _
    (ScanReach.step [] video_c2 "9" mi_c2 "Fel Movie" "t1" ScanReach.empty rfl)
    _ (by simp [update_movie, mi_c2]) rfl

/-! ## C3 -/

/-- Comparing a parsed quality against itself is always a duplicate. -/
theorem is_duplicate_self (p : ParsedQuality) : is_duplicate p p = true := by
  unfold is_duplicate resolution_matches
  simp

/-- C3: classifying a capability record against itself returns no
notification with the exact-duplicate reason, for every record and every
policy ("Already have this exact quality" in the source's rendering). -/
theorem claim_C3 : ∀ (cfg : NotificationConfig) (q : RawQuality),
    is_notification_worthy cfg q q = (false, "Already have this exact quality") := by
  intro cfg q
  unfold is_notification_worthy
  rw [if_pos (is_duplicate_self (parse_quality q))]

/-! ## C5 -/

/-- C5 (amended): the upsert is never a no-op on an existing key: re-writing
a byte-identical record still replaces the row, with `last_updated` set to
the fresh timestamp and every other column unchanged. -/
theorem claim_C5_amended (r : MovieRow) (ts : String) :
    update_movie [r] r.rating_key r.title r.dv_profile r.dv_fel r.has_atmos
      r.extra_data ts = [{ r with last_updated := ts }] := by
  cases r
  simp [update_movie]

/-- A concrete stored row for the C5 counterexample. -/
def row_c5 : MovieRow :=
  ⟨"1", "Dune", some "5", false, false, "2024-01-01T00:00:00.000000",
    some { year := some "2021" }⟩

/-- C5 counterexample: upserting the byte-identical record at a later wall
clock changes the stored table (the claim's no-op fails), precisely because
`last_updated` is rewritten. -/
theorem claim_C5_counterexample :
    update_movie [row_c5] "1" "Dune" (some "5") false false
        (some { year := some "2021" }) "2024-01-02T00:00:00.000000" ≠ [row_c5] ∧
      (update_movie [row_c5] "1" "Dune" (some "5") false false
        (some { year := some "2021" }) "2024-01-02T00:00:00.000000").map
          MovieRow.last_updated = ["2024-01-02T00:00:00.000000"] := by
  constructor
  · decide
  · rfl

/-! ## C10 -/

/-- C10: the torrent-title parser never emits an FEL sketch without DV
profile 7: `is_fel` implies `dv_profile = 7`. -/
theorem claim_C10 (t : String) :
    (parse_torrent_quality t).is_fel = true →
      (parse_torrent_quality t).dv_profile = some 7 := by
  simp only [parse_torrent_quality]
  set U := py_upper t with hU
  cases hfel : (str_has U "FEL" || str_has U "BL+EL" || str_has U "BL EL") <;>
    cases h7 : (str_has U "PROFILE 7" || str_has U "P7" || str_has U "PROFILE7") <;>
      cases hm : profile58_search U.data <;>
        simp +decide [apply_ite (fun q : TorrentQuality => q.is_fel),
          apply_ite (fun q : TorrentQuality => q.dv_profile), py_truthy, ite_self]

/-- C10 instantiated at a concrete FEL release title. -/
theorem claim_C10_witness :
    (parse_torrent_quality "Dune 2021 2160p DV FEL Atmos REMUX").dv_profile = some 7 :=
  claim_C10 "Dune 2021 2160p DV FEL Atmos REMUX" (by decide)

/-! ## C9 -/

/-- C9 (amended): with a known (truthy) year, the lookup prefers the exact
normalised-title+year row, but when no such row exists it still returns a
title-only match; any returned row matches the normalised title. -/
theorem claim_C9_amended (db : List MovieRow) (title : String) (y : Int)
    (r : MovieRow) (hy : y ≠ 0)
    (h : find_movie_in_db db title (some y) = some r) :
    py_lower r.title = py_strip (py_lower title) ∧
      (r.extra_data.bind ExtraData.year = some (toString y) ∨
        ∀ r' ∈ db, row_matches_title_year (py_strip (py_lower title)) y r' = false) := by
  simp only [find_movie_in_db] at h
  rw [if_pos (by simpa [bne_iff_ne] using hy)] at h
  cases hfind : db.find? (row_matches_title_year (py_strip (py_lower title)) y) with
  | some r0 =>
    rw [hfind] at h
    injection h with h'
    subst h'
    have hm := List.find?_some hfind
    unfold row_matches_title_year at hm
    simp only [Bool.and_eq_true, beq_iff_eq] at hm
    exact ⟨hm.1, Or.inl hm.2⟩
  | none =>
    rw [hfind] at h
    have hm := List.find?_some h
    unfold row_matches_title at hm
    rw [beq_iff_eq] at hm
    refine ⟨hm, Or.inr ?_⟩
    intro r' hr'
    exact Bool.not_eq_true _ ▸ (by exact_mod_cast List.find?_eq_none.mp hfind r' hr')

/-- A stored Dune (1984) row. -/
def row_dune84 : MovieRow :=
  ⟨"1", "Dune", none, false, false, "t0", some { year := some "1984" }⟩

/-- C9 counterexample: looking up `"Dune"` with the known year 2021 returns
the 1984 row through the unconditional title-only fallback, although the
claim says only an exact title+year match is accepted when the year is
known. -/
theorem claim_C9_counterexample :
    find_movie_in_db [row_dune84] "Dune" (some 2021) = some row_dune84 ∧
      row_dune84.extra_data.bind ExtraData.year ≠ some (toString (2021 : Int)) := by
  constructor
  · rfl
  · decide

/-- C9 (amended) applied at a database holding an exact title+year match. -/
theorem claim_C9_witness :
    py_lower (⟨"2", "Dune", some "5", false, false, "t0",
        some { year := some "2021" }⟩ : MovieRow).title =
      py_strip (py_lower "Dune") ∧
    ((⟨"2", "Dune", some "5", false, false, "t0",
        some { year := some "2021" }⟩ : MovieRow).extra_data.bind ExtraData.year =
          some (toString (2021 : Int)) ∨
      ∀ r' ∈ [(⟨"2", "Dune", some "5", false, false, "t0",
          some { year := some "2021" }⟩ : MovieRow)],
        row_matches_title_year (py_strip (py_lower "Dune")) 2021 r' = false) :=
  claim_C9_amended [⟨"2", "Dune", some "5", false, false, "t0",
    some { year := some "2021" }⟩] "Dune" 2021 _ (by decide) rfl

/-! ## C7 -/

/-- C7 (amended): on a decline callback with a live message mapping, the
handler drops the in-memory mapping and reports a declined result, while the
pending table is returned untouched (no `delete_pending_download`, no status
update). -/
theorem claim_C7_amended (tg : List (Nat × TgPending)) (db : WorkflowDb)
    (mid : Nat) (rid : String) (p : Nat × TgPending)
    (hp : tg.find? (fun q => q.1 == mid) = some p) :
    handle_callback_no tg db mid rid =
      (tg.filter (fun q => !(q.1 == mid)), db,
        { success := true, action := some "declined", request_id := some rid }) := by
  unfold handle_callback_no
  rw [hp]

/-- The stored pending row used in the C7 scenario. -/
def pend_row_c7 : PendingRow :=
  { request_id := "abc123", movie_title := some "Dune", year := none,
    torrent_url := some "magnet:x", target_folder := some "/movies/Dune",
    quality_type := some "fel", status := "pending", download_data := none,
    created_at := "t0" }

/-- C7 counterexample: after the user declines, the pending row is still in
the active table with status `'pending'` — it is neither marked declined nor
deleted. -/
theorem claim_C7_counterexample :
    ((handle_callback_no [(5, ⟨"abc123", "Dune"⟩)]
        { pending := [pend_row_c7], history := [] } 5 "abc123").2.1.pending.find?
      (fun r => r.request_id == "abc123")).map PendingRow.status = some "pending" := by
  rfl

/-- C7 (amended) applied at the concrete decline scenario. -/
theorem claim_C7_witness :
    handle_callback_no [(5, ⟨"abc123", "Dune"⟩)]
        { pending := [pend_row_c7], history := [] } 5 "abc123" =
      ([(5, ⟨"abc123", "Dune"⟩)].filter (fun q => !(q.1 == 5)),
        { pending := [pend_row_c7], history := [] },
        { success := true, action := some "declined", request_id := some "abc123" }) :=
  claim_C7_amended [(5, ⟨"abc123", "Dune"⟩)] { pending := [pend_row_c7], history := [] }
    5 "abc123" (5, ⟨"abc123", "Dune"⟩) rfl

/-! ## C8 -/

/-- C8 (amended): when the single qBittorrent attempt raises a transport
error, no retry is attempted (the next outcome is left unconsumed), the
pending row is left untouched in the store and exactly one failure notice is
sent to the user. -/
theorem claim_C8_amended (db : WorkflowDb) (rid now m : String)
    (rest : List AddOutcome) (dd : DownloadRequest)
    (h : get_pending_download db rid = some dd) :
    execute_download (.exc m :: rest) db rid "approved" now =
      ({ success := false, error := some m }, db, [.failed dd.movie_title m], rest) := by
  simp [execute_download, add_torrent, h]

/-- The stored download request of the C8 scenario. -/
def dd_c8 : DownloadRequest :=
  { request_id := "abc123", movie_title := "Dune", year := none,
    current_quality := "• HDR10 / SDR", new_quality := "• DV Profile 7 FEL (BL+EL+RPU)",
    upgrade_reason := "Upgrade: HDR10/SDR → P7 FEL ⭐", torrent_url := some "magnet:x",
    torrent_title := "Dune 2021", target_folder := "/movies/Dune",
    quality_type := "fel", created_at := "t0" }

/-- The stored pending row of the C8 scenario. -/
def pend_row_c8 : PendingRow :=
  { request_id := "abc123", movie_title := some "Dune", year := none,
    torrent_url := some "magnet:x", target_folder := some "/movies/Dune",
    quality_type := some "fel", status := "pending", download_data := some dd_c8,
    created_at := "t0" }

/-- The store state of the C8 scenario: one pending row. -/
def wdb_c8 : WorkflowDb :=
  { pending := [pend_row_c8], history := [] }

/-- C8 counterexample: a transport failure on approval is not retried — the
second, would-be-successful outcome is left unconsumed and the call reports
failure (a retry would have consumed it and succeeded); the row stays
`'pending'` and one failure notice is sent. -/
theorem claim_C8_counterexample :
    execute_download [.exc "Cannot connect to host", .ok (some "h1")] wdb_c8
        "abc123" "approved" "t1" =
      ({ success := false, error := some "Cannot connect to host" }, wdb_c8,
        [.failed "Dune" "Cannot connect to host"], [.ok (some "h1")]) := by
  rfl

/-- C8 (amended) applied at the concrete scenario. -/
theorem claim_C8_witness :
    execute_download [.exc "connection refused"] wdb_c8 "abc123" "approved" "t1" =
      ({ success := false, error := some "connection refused" }, wdb_c8,
        [.failed dd_c8.movie_title "connection refused"], []) :=
  claim_C8_amended wdb_c8 "abc123" "t1" "connection refused" [] dd_c8 rfl

/-! ## C4 -/

/-- C4 (amended): verification removes exactly the members whose key is
missing from the scan map and never adds a member: the resulting membership
is the previous membership restricted to qualifying keys, and the removed
list is its complement. -/
theorem claim_C4_amended (membership : List PlexItem) (qual_keys : List String) :
    (verify_collection membership qual_keys).1 =
        membership.filter (item_in_map qual_keys) ∧
      (∀ x ∈ (verify_collection membership qual_keys).1,
        x ∈ membership ∧ item_in_map qual_keys x = true) ∧
      (∀ x ∈ membership, item_in_map qual_keys x = true →
        x ∈ (verify_collection membership qual_keys).1) ∧
      (verify_collection membership qual_keys).2 =
        membership.filter (fun m => !item_in_map qual_keys m) := by
  refine ⟨rfl, ?_, ?_, rfl⟩
  · intro x hx
    exact List.mem_filter.mp hx
  · intro x hx hq
    exact List.mem_filter.mpr ⟨hx, hq⟩

/-- A two-movie FEL scan result. -/
def scan_c4 : List (String × MediaInfo) :=
  [("1", ⟨"A", none, some "7", true, false, none⟩),
   ("2", ⟨"B", none, some "7", true, false, none⟩)]

/-- C4 counterexample: movie `"2"` qualifies for the P7-FEL collection but is
not a member; after verification the membership is unchanged (`verify` never
adds), so membership differs from the qualifying set. -/
theorem claim_C4_counterexample :
    scan_fel_p7_keys scan_c4 = ["1", "2"] ∧
      (verify_collection [⟨some "1", "A"⟩] (scan_fel_p7_keys scan_c4)).1 =
        [⟨some "1", "A"⟩] := by
  constructor
  · rfl
  · rfl

/-- C4 (amended) applied at the concrete scenario: the qualifying member is
retained. -/
theorem claim_C4_witness :
    (⟨some "1", "A"⟩ : PlexItem) ∈ (verify_collection [⟨some "1", "A"⟩] ["1"]).1 :=
  (claim_C4_amended [⟨some "1", "A"⟩] ["1"]).2.2.1 ⟨some "1", "A"⟩ (by decide)
    (by decide)

/-! ## C6 -/

/-- The MD5 digest is sixteen bytes. -/
theorem md5_digest_length (msg : List Nat) : (md5_digest msg).length = 16 := by
  simp [md5_digest, le_bytes]

/-- Hex rendering doubles the byte count. -/
theorem byte_hex_flatten_length (l : List Nat) :
    ((l.map byte_hex).flatten).length = 2 * l.length := by
  induction l with
  | nil => rfl
  | cons b t ih => simp [byte_hex, ih]; omega

/-- An MD5 hex digest has 32 characters. -/
theorem md5hex_length (s : String) : (md5hex s).data.length = 32 := by
  show ((((md5_digest (s.data.map Char.toNat)).map byte_hex).flatten)).length = 32
  rw [byte_hex_flatten_length, md5_digest_length]

/-- Any character `hex_chars.getD` yields is a hex character. -/
theorem hex_chars_getD_mem (i : Nat) : hex_chars.getD i '0' ∈ hex_chars := by
  unfold List.getD
  cases h : hex_chars[i]? with
  | none => simp [h]; decide
  | some c => simpa [h] using List.getElem?_mem h

/-- Every character of an MD5 hex digest is a hex character. -/
theorem md5hex_chars (s : String) : ∀ c ∈ (md5hex s).data, c ∈ hex_chars := by
  intro c hc
  have hc' : c ∈ ((md5_digest (s.data.map Char.toNat)).map byte_hex).flatten := hc
  obtain ⟨lb, hlb, hcl⟩ := List.mem_flatten.mp hc'
  obtain ⟨b, _, rfl⟩ := List.mem_map.mp hlb
  simp only [byte_hex, List.mem_cons, List.not_mem_nil, or_false] at hcl
  rcases hcl with rfl | rfl
  · exact hex_chars_getD_mem _
  · exact hex_chars_getD_mem _

/-- The movie database of the C6 scenario: Dune (2021), DV profile 5. -/
def db_c6 : List MovieRow :=
  [⟨"1", "Dune", some "5", false, false, "t0", some { year := some "2021" }⟩]

/-- The release title the tracker reports, twice. -/
def title_c6 : String := "Dune 2021 2160p DV FEL Atmos REMUX"

/-- First discovery, at `time.time() = 1700000000.0`, into an empty pending
table. -/
def disco1 : WorkflowDb × DiscoStatus :=
  process_ipt_discovery db_c6 {} (some "/movies/Dune (2021)") (some 100)
    ⟨[], []⟩ title_c6 (some "magnet:x") "1700000000.0" "2024-01-01T00:00:00"

/-- Identical second discovery half a second later. -/
def disco2 : WorkflowDb × DiscoStatus :=
  process_ipt_discovery db_c6 {} (some "/movies/Dune (2021)") (some 101)
    disco1.1 title_c6 (some "magnet:x") "1700000000.5" "2024-01-01T00:00:00"

set_option maxRecDepth 1000000 in
/-- C6 counterexample: processing the identical tracker release twice within
one second leaves two Pending rows, not at most one — the request id hashes
the wall clock, so there is no natural-key deduplication. -/
theorem claim_C6_counterexample : disco2.1.pending.length = 2 := by
  decide

set_option maxRecDepth 1000000 in
/-- C6 (amended): the request id is the first 12 characters of an MD5 hex
digest of title+sketch+`time.time()` — always 12 lowercase-hex characters —
and identical discoveries at two distinct instants inside one second receive
distinct request ids and therefore two Pending rows. -/
theorem claim_C6_amended :
    (∀ (t : String) (q : TorrentQuality) (now : String),
      (generate_request_id t q now).length = 12 ∧
        ∀ c ∈ (generate_request_id t q now).data, c ∈ hex_chars) ∧
      generate_request_id "Dune" (parse_torrent_quality title_c6) "1700000000.0" ≠
        generate_request_id "Dune" (parse_torrent_quality title_c6) "1700000000.5" ∧
      disco2.1.pending.length = 2 := by
  refine ⟨fun t q now => ⟨?_, ?_⟩, by decide, by decide⟩
  · show ((md5hex (t ++ py_repr_torrent_quality q ++ now)).data.take 12).length = 12
    rw [List.length_take, md5hex_length]
    rfl
  · intro c hc
    have hc' : c ∈ (md5hex (t ++ py_repr_torrent_quality q ++ now)).data :=
      List.take_subset 12 _ hc
    exact md5hex_chars _ c hc'

set_option maxRecDepth 1000000 in
/-- C6 (amended) instantiated: the first request id of the scenario has
length 12. -/
theorem claim_C6_witness :
    (generate_request_id "Dune" (parse_torrent_quality title_c6)
      "1700000000.0").length = 12 :=
  (claim_C6_amended.1 "Dune" (parse_torrent_quality title_c6) "1700000000.0").1
